import Mathlib

/-!
Shallow embedding of `src/backend/open_webui/sandbox/runner.py`
(open-webui sandbox runner) and proofs about its specification.

The runner reads one JSON request from stdin, applies resource limits,
arms a wall-clock alarm, compiles the submitted source with the
restricted compiler, executes it in a namespace seeded with an
allow-listed builtins mapping, resolves the `Tools().run(**params)`
entry point, and prints exactly one JSON result envelope.

The Python control flow (try/except/finally, signals, the opaque
restricted compiler and the behaviour of the untrusted user code) is
embedded by making the environment's choices explicit in a `Scenario`
value; `execute_tool_code` and `main` below mirror the source line by
line over that scenario.
-/

namespace Runner

/-- JSON-typed values (the payloads carried by `params` and `result`). -/
inductive Val : Type where
  | null : Val
  | bool : Bool → Val
  | int : Int → Val
  | str : String → Val
  | arr : List Val → Val
  | obj : List (String × Val) → Val

/-- A result envelope as built by the source: a dict with key `ok` and
either a `result` key or an `error` key. -/
structure Envelope : Type where
  ok : Bool
  result : Option Val
  error : Option String

/-- The dict `{"ok": True, "result": r}` as written in the source. -/
def mkOk (r : Val) : Envelope := ⟨true, some r, none⟩

/-- The dict `{"ok": False, "error": e}` as written in the source. -/
def mkErr (e : String) : Envelope := ⟨false, none, some e⟩

/-- Python exception classes that can unwind the `try` block of
`execute_tool_code`: the runner's own `TimeoutError`, the interpreter's
`MemoryError`, and any other `Exception` carrying a message `str(e)`. -/
inductive ExcKind : Type where
  | timeout : ExcKind
  | memory : ExcKind
  | other : String → ExcKind
deriving DecidableEq, Repr

/-- The text `str(e)` of a caught exception, as interpolated by the source into
`f"Execution error: {str(e)}"` and `f"Runner error: {str(e)}"`. -/
def excMsg : ExcKind → String
  | .timeout => "Execution timeout"
  | .memory => ""
  | .other m => m

/-- Outcome of one call to the submitted `run` method. -/
inductive RunRes : Type where
  | value : Val → RunRes
  | fault : ExcKind → RunRes

/-- Shape of the `Tools` object found in the executed namespace:
instantiation may raise, the instance may lack `run`, or it has a `run`
method with keyword-parameter names `sig` and body `body`. -/
inductive ToolsShape : Type where
  | initFault : ExcKind → ToolsShape
  | noRun : ToolsShape
  | withRun : List String → (List (String × Val) → RunRes) → ToolsShape

/-- The `params` argument as passed to `run(**params)`: the decoded
`params` field is either a JSON object (a mapping) or some other JSON
value, in which case `**params` raises `TypeError`. -/
inductive Params : Type where
  | mapping : List (String × Val) → Params
  | nonMapping : Val → Params

/-- Environment choices fixed by one concrete invocation: whether
`setrlimit` raises (and with what message), whether the restricted
compiler accepts the source, what the user code prints through the
allow-listed `print` binding, whether execution raises, and the shape of
the `Tools` object the executed namespace defines. -/
structure Scenario : Type where
  limiterFail : Option String
  compileOk : Bool
  execPrints : List String
  execFault : Option ExcKind
  tools : Option ToolsShape

/-- Observable actions of the runner process, in program order. -/
inductive Event : Type where
  | rlimitAS : Nat → Nat → Event
  | rlimitCPU : Nat → Nat → Event
  | alarmSet : Nat → Event
  | compileCalled : Event
  | userExec : Event
  | printed : String → Event
deriving DecidableEq, Repr

/-- The call `tool_instance.run(**params)`: Python's `**` expansion raises
`TypeError` when `params` is not a mapping or holds a keyword that is
not a parameter name of `run`; otherwise the body runs on the bound
keyword arguments. -/
def invokeRun (sig : List String) (body : List (String × Val) → RunRes)
    (params : Params) : RunRes :=
  match params with
  | .nonMapping _ =>
      .fault (.other ("run() argument after ** must be a mapping"))
  | .mapping kvs =>
      if kvs.all (fun kv => sig.contains kv.1) then body kvs
      else .fault (.other ("run() got an unexpected keyword argument"))

/-- Result of the `try` body: a `return`ed envelope or an exception
unwinding to the `except` clauses. -/
inductive TryResult : Type where
  | ret : Envelope → TryResult
  | exc : ExcKind → TryResult

/-- The `try` block of `execute_tool_code` (runner.py lines 67-102):
`setup_resource_limits()`, `signal.alarm(120)`, restricted compile,
`exec`, then entry-point resolution, with `signal.alarm(0)` before the
successful `return`. -/
def tryBody (s : Scenario) (params : Params) : List Event × TryResult :=
  match s.limiterFail with
  | some m => ([], .exc (.other m))
  | none =>
    let setupEvs : List Event :=
      [.rlimitAS (256 * 1024 * 1024) (256 * 1024 * 1024),
       .rlimitCPU 60 60, .alarmSet 120, .compileCalled]
    if ¬ s.compileOk then
      (setupEvs, .ret (mkErr ("Code compilation failed (restricted)")))
    else
      let evs := setupEvs ++ [Event.userExec] ++ s.execPrints.map .printed
      match s.execFault with
      | some e => (evs, .exc e)
      | none =>
        match s.tools with
        | none =>
            (evs ++ [.alarmSet 0],
             .ret (mkOk (.str ("Code executed successfully"))))
        | some (.initFault e) => (evs, .exc e)
        | some .noRun =>
            (evs ++ [.alarmSet 0],
             .ret (mkOk (.str ("Tool instance created"))))
        | some (.withRun sig body) =>
            match invokeRun sig body params with
            | .value v => (evs ++ [.alarmSet 0], .ret (mkOk v))
            | .fault e => (evs, .exc e)

/-- The `except` clauses of `execute_tool_code` (runner.py lines
104-109): `TimeoutError`, `MemoryError` and the catch-all `Exception`
each become an error envelope; a returned envelope passes through.
An exception kind with no matching clause would stay `.error`
(propagate), but all three kinds are matched. -/
def handle : TryResult → Except ExcKind Envelope
  | .ret env => .ok env
  | .exc .timeout => .ok (mkErr ("Execution timeout"))
  | .exc .memory => .ok (mkErr ("Memory limit exceeded"))
  | .exc (.other m) => .ok (mkErr ("Execution error: " ++ m))

/-- Function `execute_tool_code` (runner.py lines 62-111): the `try` body, the
`except` clauses, and the `finally: signal.alarm(0)` appended to the
event trace on every path.  The `Except` layer records whether an
exception escapes the function. -/
def execute_tool_code (s : Scenario) (params : Params) :
    List Event × Except ExcKind Envelope :=
  ((tryBody s params).1 ++ [.alarmSet 0], handle (tryBody s params).2)

/-- The Python callables bound in the restricted builtins dict.  Each
constructor stands for one concrete interpreter builtin. -/
inductive BOp : Type where
  | len | str | int | float | bool | list | dict | tuple | set | range
  | enumerate | zip | map | filter | sorted | sum | min | max | abs
  | round | print
deriving DecidableEq, Repr

/-- The (Python) name of a builtin callable. -/
def opName : BOp → String
  | .len => "len" | .str => "str" | .int => "int" | .float => "float"
  | .bool => "bool" | .list => "list" | .dict => "dict"
  | .tuple => "tuple" | .set => "set" | .range => "range"
  | .enumerate => "enumerate" | .zip => "zip" | .map => "map"
  | .filter => "filter" | .sorted => "sorted" | .sum => "sum"
  | .min => "min" | .max => "max" | .abs => "abs" | .round => "round"
  | .print => "print"

/-- Function `create_safe_globals` (runner.py lines 32-59): the `__builtins__`
mapping, each key bound to the implementation the source names on the
right-hand side.  Line 52 binds the key `'min'` to the builtin `max`. -/
def create_safe_globals : List (String × BOp) :=
  [("len", .len), ("str", .str), ("int", .int), ("float", .float),
   ("bool", .bool), ("list", .list), ("dict", .dict), ("tuple", .tuple),
   ("set", .set), ("range", .range), ("enumerate", .enumerate),
   ("zip", .zip), ("map", .map), ("filter", .filter),
   ("sorted", .sorted), ("sum", .sum), ("min", .max), ("max", .max),
   ("abs", .abs), ("round", .round), ("print", .print)]

/-- Semantics of the aggregation builtins on a nonempty list of
integers: `max` returns the largest element, `min` the smallest. -/
def evalAgg : BOp → List Int → Option Int
  | .max, x :: xs => some (xs.foldl Max.max x)
  | .min, x :: xs => some (xs.foldl Min.min x)
  | _, _ => none

/-- What invoking the sandboxed binding of a builtin name on a list of
integers returns: dict lookup in the capability set, then the bound
implementation applied. -/
def callBuiltin (name : String) (args : List Int) : Option Int :=
  match (create_safe_globals.lookup name) with
  | some op => evalAgg op args
  | none => none

/-- JSON string literal (escaping elided; no claim depends on it). -/
def jsonStr (s : String) : String := "\"" ++ s ++ "\""

mutual

/-- Encoding `json.dumps` of a JSON value, with Python's default separators. -/
def encodeVal : Val → String
  | .null => "null"
  | .bool true => "true"
  | .bool false => "false"
  | .int n => toString n
  | .str s => jsonStr s
  | .arr xs => "[" ++ encodeArr xs ++ "]"
  | .obj kvs => "\x7b" ++ encodeObj kvs ++ "\x7d"

/-- Comma-separated encoding of array elements. -/
def encodeArr : List Val → String
  | [] => ""
  | [x] => encodeVal x
  | x :: xs => encodeVal x ++ ", " ++ encodeArr xs

/-- Comma-separated encoding of object members. -/
def encodeObj : List (String × Val) → String
  | [] => ""
  | [(k, v)] => jsonStr k ++ ": " ++ encodeVal v
  | (k, v) :: kvs => jsonStr k ++ ": " ++ encodeVal v ++ ", " ++ encodeObj kvs

end

/-- Encoding `json.dumps(result)` of a result envelope: one JSON object whose
members are exactly the keys present in the dict, in insertion order. -/
def encodeEnvelope (e : Envelope) : String :=
  "\x7b" ++ jsonStr ("ok") ++ ": " ++ (if e.ok then "true" else "false")
    ++ (match e.result with
        | some r => ", " ++ jsonStr ("result") ++ ": " ++ encodeVal r
        | none => "")
    ++ (match e.error with
        | some m => ", " ++ jsonStr ("error") ++ ": " ++ jsonStr m
        | none => "")
    ++ "\x7d"

/-- How far `main` gets decoding stdin: `json.loads`, the `['code']`
lookup or `b64decode` raised with message `m`, or the request decoded
and the submitted code behaves as `Scenario` with the decoded `params`
(`input_data.get('params', {})`, any JSON value). -/
inductive MainInput : Type where
  | badRequest : String → MainInput
  | goodRequest : Scenario → Params → MainInput

/-- Observable outcome of one run of `main`: the runner events, the
envelope it built, the ordered writes to stdout, and the exit code. -/
structure MainOutput : Type where
  events : List Event
  envelope : Envelope
  stdout : List String
  exitCode : Nat

/-- The stdout writes among the runner events (the user code's calls to
the allow-listed `print`, which is the interpreter's real `print`). -/
def stdoutWrites : List Event → List String
  | [] => []
  | .printed s :: evs => s :: stdoutWrites evs
  | _ :: evs => stdoutWrites evs

/-- Function `main` (runner.py lines 114-133): decode stdin, run
`execute_tool_code`, `print(json.dumps(result))`; on any exception a
best-effort `\x7b"ok": False, "error": ...\x7d` envelope is printed and
the process exits 1; otherwise it exits 0. -/
def main : MainInput → MainOutput
  | .badRequest m =>
      let env := mkErr ("Runner error: " ++ m)
      ⟨[], env, [encodeEnvelope env], 1⟩
  | .goodRequest s params =>
      match execute_tool_code s params with
      | (evs, .ok env) =>
          ⟨evs, env, stdoutWrites evs ++ [encodeEnvelope env], 0⟩
      | (evs, .error e) =>
          let env := mkErr ("Runner error: " ++ excMsg e)
          ⟨evs, env, stdoutWrites evs ++ [encodeEnvelope env], 1⟩

/-- The alarm value left pending after a list of events (`none` if
`signal.alarm` was never called). -/
def finalAlarm (evs : List Event) : Option Nat :=
  evs.foldl (fun acc e => match e with | .alarmSet n => some n | _ => acc)
    none

/-- Is this event a `setrlimit` call? -/
def isRlimit : Event → Bool
  | .rlimitAS _ _ => true
  | .rlimitCPU _ _ => true
  | _ => false

/-- A well-formed envelope: `ok` with exactly one of `result`/`error`. -/
def envelopeWF (e : Envelope) : Prop :=
  (e.ok = true → e.error = none ∧ e.result.isSome) ∧
  (e.ok = false → e.result = none ∧ e.error.isSome)

/-- The stdout writes user code makes through the `print` capability:
nothing unless the limiter succeeded and the compile was accepted. -/
def printsOf (s : Scenario) : List String :=
  match s.limiterFail with
  | some _ => []
  | none => if s.compileOk then s.execPrints else []

/-- The request's `params` does not fit the submitted `run` signature:
it is not a mapping, or holds a key that is not a parameter name. -/
def kwargsMismatch (sig : List String) : Params → Bool
  | .nonMapping _ => true
  | .mapping kvs => ! kvs.all (fun kv => sig.contains kv.1)

theorem envelopeWF_mkOk (v : Val) : envelopeWF (mkOk v) := by
  constructor <;> simp [mkOk, envelopeWF]

theorem envelopeWF_mkErr (m : String) : envelopeWF (mkErr m) := by
  constructor <;> simp [mkErr, envelopeWF]

/-- Every path through the `try` body either returns a well-formed
envelope or raises. -/
theorem tryBody_cases (s : Scenario) (params : Params) :
    (∃ env, (tryBody s params).2 = .ret env ∧ envelopeWF env) ∨
    (∃ e, (tryBody s params).2 = .exc e) := by
  rcases s with ⟨lf, co, pr, ef, tl⟩
  rcases lf with _ | m
  · rcases co with _ | _
    · exact Or.inl ⟨_, rfl, envelopeWF_mkErr _⟩
    · rcases ef with _ | e
      · rcases tl with _ | sh
        · exact Or.inl ⟨_, rfl, envelopeWF_mkOk _⟩
        · rcases sh with e | _ | ⟨sig, body⟩
          · exact Or.inr ⟨e, rfl⟩
          · exact Or.inl ⟨_, rfl, envelopeWF_mkOk _⟩
          · simp only [tryBody]
            rcases invokeRun sig body params with v | e
            · exact Or.inl ⟨_, rfl, envelopeWF_mkOk _⟩
            · exact Or.inr ⟨e, rfl⟩
      · exact Or.inr ⟨e, rfl⟩
  · exact Or.inr ⟨.other m, rfl⟩

/-- Totality: `execute_tool_code` never lets an exception escape, and the
envelope it returns is well-formed. -/
theorem execute_ok_wf (s : Scenario) (params : Params) :
    ∃ env, (execute_tool_code s params).2 = .ok env ∧ envelopeWF env := by
  have h := tryBody_cases s params
  rcases h with ⟨env, hr, hwf⟩ | ⟨e, hr⟩
  · exact ⟨env, by simp [execute_tool_code, hr, handle], hwf⟩
  · rcases e with _ | _ | m
    · exact ⟨mkErr ("Execution timeout"),
        by simp [execute_tool_code, hr, handle], envelopeWF_mkErr _⟩
    · exact ⟨mkErr ("Memory limit exceeded"),
        by simp [execute_tool_code, hr, handle], envelopeWF_mkErr _⟩
    · exact ⟨mkErr ("Execution error: " ++ m),
        by simp [execute_tool_code, hr, handle], envelopeWF_mkErr _⟩

/-- Unfolding `main` on a decoded request once the sandbox result is
known. -/
theorem main_good_ok (s : Scenario) (params : Params) (evs : List Event)
    (env : Envelope) (h : execute_tool_code s params = (evs, .ok env)) :
    main (.goodRequest s params) =
      ⟨evs, env, stdoutWrites evs ++ [encodeEnvelope env], 0⟩ := by
  simp only [main, h]

theorem stdoutWrites_append (l l' : List Event) :
    stdoutWrites (l ++ l') = stdoutWrites l ++ stdoutWrites l' := by
  induction l with
  | nil => rfl
  | cons e l ih => cases e <;> simp [stdoutWrites, ih]

theorem stdoutWrites_map_printed (l : List String) :
    stdoutWrites (l.map Event.printed) = l := by
  induction l with
  | nil => rfl
  | cons x l ih => simp [stdoutWrites, ih]

theorem filter_isRlimit_map_printed (l : List String) :
    (l.map Event.printed).filter isRlimit = [] := by
  induction l with
  | nil => rfl
  | cons x l ih => simp [List.filter_cons, isRlimit, ih]

/-- The stdout writes produced during `execute_tool_code` are exactly
the user code's prints (made only when the limiter and the restricted
compile both succeeded). -/
theorem stdoutWrites_execute (s : Scenario) (params : Params) :
    stdoutWrites (execute_tool_code s params).1 = printsOf s := by
  rcases s with ⟨lf, co, pr, ef, tl⟩
  rcases lf with _ | m
  · rcases co with _ | _
    · simp [execute_tool_code, tryBody, stdoutWrites, printsOf]
    · rcases ef with _ | e
      · rcases tl with _ | sh
        · simp [execute_tool_code, tryBody, printsOf, stdoutWrites,
            stdoutWrites_append, stdoutWrites_map_printed]
        · rcases sh with e | _ | ⟨sig, body⟩
          · simp [execute_tool_code, tryBody, printsOf, stdoutWrites,
              stdoutWrites_append, stdoutWrites_map_printed]
          · simp [execute_tool_code, tryBody, printsOf, stdoutWrites,
              stdoutWrites_append, stdoutWrites_map_printed]
          · rcases hinv : invokeRun sig body params with v | e <;>
              simp [execute_tool_code, tryBody, printsOf, stdoutWrites,
                stdoutWrites_append, stdoutWrites_map_printed, hinv]
      · simp [execute_tool_code, tryBody, printsOf, stdoutWrites,
          stdoutWrites_append, stdoutWrites_map_printed]
  · simp [execute_tool_code, tryBody, printsOf, stdoutWrites]

/-- When the limiter succeeds, the runner's trace opens with the two
`setrlimit` calls and `signal.alarm(120)`, and no `setrlimit` call
occurs anywhere later. -/
theorem execute_trace_shape (s : Scenario) (params : Params)
    (h : s.limiterFail = none) :
    (execute_tool_code s params).1 =
      .rlimitAS (256 * 1024 * 1024) (256 * 1024 * 1024) ::
        .rlimitCPU 60 60 :: .alarmSet 120 ::
        ((execute_tool_code s params).1.drop 3) ∧
    ((execute_tool_code s params).1.drop 3).filter isRlimit = [] := by
  rcases s with ⟨lf, co, pr, ef, tl⟩
  simp only at h
  subst h
  rcases co with _ | _
  · constructor <;> simp [execute_tool_code, tryBody, isRlimit]
  · rcases ef with _ | e
    · rcases tl with _ | sh
      · constructor <;> simp [execute_tool_code, tryBody, isRlimit,
          List.filter_append, filter_isRlimit_map_printed]
      · rcases sh with e | _ | ⟨sig, body⟩
        · constructor <;> simp [execute_tool_code, tryBody, isRlimit,
            List.filter_append, filter_isRlimit_map_printed]
        · constructor <;> simp [execute_tool_code, tryBody, isRlimit,
            List.filter_append, filter_isRlimit_map_printed]
        · rcases hinv : invokeRun sig body params with v | e <;>
            constructor <;> simp [execute_tool_code, tryBody, hinv,
              isRlimit, List.filter_append, filter_isRlimit_map_printed]
    · constructor <;> simp [execute_tool_code, tryBody, isRlimit,
        List.filter_append, filter_isRlimit_map_printed]

/-- C1 (counterexample): when `setrlimit` raises, the failure is NOT
fatal — contrary to the claim, the generic `except Exception` clause
converts it into an ordinary `\x7b"ok": false, ...\x7d` envelope and
the process exits with code 0. -/
theorem c1_limiter_failure_counterexample :
    (main (.goodRequest ⟨some ("setrlimit failed"), true, [], none, none⟩
        (.mapping []))).exitCode = 0 ∧
    (main (.goodRequest ⟨some ("setrlimit failed"), true, [], none, none⟩
        (.mapping []))).envelope =
      mkErr ("Execution error: setrlimit failed") :=
  ⟨rfl, rfl⟩

/-- C1 (amended): when `setrlimit` raises, the runner neither compiles
nor executes any user code (its trace is just the `finally` disarm),
but the failure is not fatal: the catch-all handler converts it into an
ordinary `\x7b"ok": false, "error": "Execution error: ..."\x7d`
envelope and the process prints it and exits with code 0. -/
theorem c1_limiter_failure_amended (s : Scenario) (params : Params)
    (m : String) (h : s.limiterFail = some m) :
    (execute_tool_code s params).1 = [.alarmSet 0] ∧
    (execute_tool_code s params).2 =
      .ok (mkErr ("Execution error: " ++ m)) ∧
    (main (.goodRequest s params)).exitCode = 0 := by
  rcases s with ⟨lf, co, pr, ef, tl⟩
  simp only at h
  subst h
  have hfull : execute_tool_code ⟨some m, co, pr, ef, tl⟩ params =
      ([.alarmSet 0], .ok (mkErr ("Execution error: " ++ m))) := rfl
  refine ⟨rfl, rfl, ?_⟩
  rw [main_good_ok _ _ _ _ hfull]

/-- C1 (amended, witness). -/
theorem c1_limiter_failure_amended_witness :
    (⟨some ("boom"), true, [], none, none⟩ : Scenario).limiterFail
      = some ("boom") ∧
    (execute_tool_code ⟨some ("boom"), true, [], none, none⟩
        (.mapping [])).2 = .ok (mkErr ("Execution error: boom")) :=
  ⟨rfl, (c1_limiter_failure_amended _ (.mapping []) ("boom") rfl).2.1⟩

/-- C2: every envelope the runner produces — from `execute_tool_code`
and from `main`'s protocol-failure path — has a boolean `ok` and
exactly one of `result`/`error`: `ok = true` means no `error` field and
a `result` field present, `ok = false` means no `result` field and an
`error` field present. -/
theorem c2_envelope_invariant :
    (∀ (s : Scenario) (params : Params),
      ∃ env, (execute_tool_code s params).2 = .ok env ∧ envelopeWF env) ∧
    (∀ inp : MainInput, envelopeWF (main inp).envelope) := by
  refine ⟨execute_ok_wf, ?_⟩
  intro inp
  rcases inp with m | ⟨s, params⟩
  · exact envelopeWF_mkErr _
  · obtain ⟨env, h2, hwf⟩ := execute_ok_wf s params
    rcases hfull : execute_tool_code s params with ⟨evs, r⟩
    rw [hfull] at h2
    simp only at h2
    subst h2
    rw [main_good_ok _ _ _ _ hfull]
    exact hwf

/-- C3: for a successfully compiled and executed submission, the three
entry-point cases are all `ok = true`: a `Tools` instance with `run`
yields `run(**params)`'s return value as `result`; a `Tools` instance
without `run` yields the fixed string "Tool instance created"; no
`Tools` object yields the fixed string "Code executed successfully". -/
theorem c3_entry_point_resolution (s : Scenario) (params : Params)
    (h1 : s.limiterFail = none) (h2 : s.compileOk = true)
    (h3 : s.execFault = none) :
    (∀ sig body v, s.tools = some (.withRun sig body) →
        invokeRun sig body params = .value v →
        (execute_tool_code s params).2 = .ok (mkOk v)) ∧
    (s.tools = some .noRun →
        (execute_tool_code s params).2 =
          .ok (mkOk (.str ("Tool instance created")))) ∧
    (s.tools = none →
        (execute_tool_code s params).2 =
          .ok (mkOk (.str ("Code executed successfully")))) := by
  rcases s with ⟨lf, co, pr, ef, tl⟩
  simp only at h1 h2 h3
  subst h1; subst h2; subst h3
  refine ⟨?_, ?_, ?_⟩
  · intro sig body v htl hinv
    simp only at htl
    subst htl
    simp [execute_tool_code, tryBody, hinv, handle]
  · intro htl
    simp only at htl
    subst htl
    simp [execute_tool_code, tryBody, handle]
  · intro htl
    simp only at htl
    subst htl
    simp [execute_tool_code, tryBody, handle]

/-- C3 (witness): the test suite's safe scenario — `run` returns the
string "Hello, safe world!" and the envelope carries it as `result`. -/
theorem c3_entry_point_resolution_witness :
    (execute_tool_code
        ⟨none, true, [], none,
         some (.withRun []
           (fun _ => .value (.str ("Hello, safe world!"))))⟩
        (.mapping [])).2 =
      .ok (mkOk (.str ("Hello, safe world!"))) :=
  (c3_entry_point_resolution _ (.mapping []) rfl rfl rfl).1
    [] (fun _ => .value (.str ("Hello, safe world!"))) _ rfl rfl

/-- C4: the process exits 0 whenever the request decoded (every
envelope from `execute_tool_code`, including all `ok = false`
outcomes), and exits 1 only when the request could not be parsed, in
which case a best-effort error envelope is still written to stdout. -/
theorem c4_exit_codes :
    (∀ (s : Scenario) (params : Params),
        (main (.goodRequest s params)).exitCode = 0) ∧
    (∀ m : String, (main (.badRequest m)).exitCode = 1 ∧
        (main (.badRequest m)).envelope = mkErr ("Runner error: " ++ m) ∧
        (main (.badRequest m)).stdout =
          [encodeEnvelope (mkErr ("Runner error: " ++ m))]) := by
  constructor
  · intro s params
    obtain ⟨env, h2, _⟩ := execute_ok_wf s params
    rcases hfull : execute_tool_code s params with ⟨evs, r⟩
    rw [hfull] at h2
    simp only at h2
    subst h2
    rw [main_good_ok _ _ _ _ hfull]
  · intro m
    exact ⟨rfl, rfl, rfl⟩

/-- C5: on every path of `execute_tool_code` the event trace ends with
`signal.alarm(0)` — the `finally` clause — so the pending alarm after
the function returns is always 0; the disarm is never skipped. -/
theorem c5_alarm_always_disarmed (s : Scenario) (params : Params) :
    (∃ l, (execute_tool_code s params).1 = l ++ [.alarmSet 0]) ∧
    finalAlarm (execute_tool_code s params).1 = some 0 := by
  refine ⟨⟨(tryBody s params).1, rfl⟩, ?_⟩
  simp [execute_tool_code, finalAlarm, List.foldl_append]

/-- C6 (counterexample): submitted code that calls the allow-listed
`print` — bound to the interpreter's real `print` — writes to the
process's stdout before the envelope, so stdout is NOT exactly one
JSON object: here it is two writes, the first of which is the user's
line, not an envelope. -/
theorem c6_single_json_counterexample :
    (main (.goodRequest ⟨none, true, ["hello"], none, none⟩
        (.mapping []))).stdout =
      ["hello",
       encodeEnvelope (mkOk (.str ("Code executed successfully")))] ∧
    (main (.goodRequest ⟨none, true, ["hello"], none, none⟩
        (.mapping []))).stdout.length ≠ 1 :=
  ⟨rfl, by decide⟩

/-- C6 (amended): stdout consists of whatever the submitted code
printed through the allow-listed `print` binding, followed by exactly
one encoded JSON envelope, which is the final write before exit; when
the submitted code prints nothing (and on the protocol-failure path),
stdout is exactly the one envelope. -/
theorem c6_stdout_shape :
    (∀ (s : Scenario) (params : Params),
        (main (.goodRequest s params)).stdout =
          printsOf s ++
            [encodeEnvelope (main (.goodRequest s params)).envelope]) ∧
    (∀ m : String, (main (.badRequest m)).stdout =
        [encodeEnvelope (main (.badRequest m)).envelope]) := by
  constructor
  · intro s params
    obtain ⟨env, h2, _⟩ := execute_ok_wf s params
    rcases hfull : execute_tool_code s params with ⟨evs, r⟩
    rw [hfull] at h2
    simp only at h2
    subst h2
    have hw := stdoutWrites_execute s params
    rw [hfull] at hw
    rw [main_good_ok _ _ _ _ hfull]
    simp only at hw ⊢
    rw [hw]
  · intro m
    rfl

/-- C7: `create_safe_globals` binds the key `'min'` to the builtin
`max`: the sandboxed `min` applied to `[1, 2]` returns the largest
element 2, not the smallest 1; every other binding in the dict maps
its name to the builtin of the same name. -/
theorem c7_min_bound_to_max :
    create_safe_globals.lookup ("min") = some BOp.max ∧
    callBuiltin ("min") [1, 2] = some 2 ∧
    evalAgg BOp.min [1, 2] = some 1 ∧
    callBuiltin ("min") [1, 2] ≠ evalAgg BOp.min [1, 2] ∧
    (create_safe_globals.all
      (fun p => p.1 == "min" || opName p.2 == p.1)) = true := by
  decide

/-- C8: every execution unwound by the wall-clock `TimeoutError` is
caught — never propagated out of `execute_tool_code` — and becomes
`\x7b"ok": false, "error": "Execution timeout"\x7d`, whose error
string contains "timeout". -/
theorem c8_timeout_envelope (s : Scenario) (params : Params)
    (h : (tryBody s params).2 = .exc .timeout) :
    (execute_tool_code s params).2 = .ok (mkErr ("Execution timeout")) ∧
    ∃ pre post, "Execution timeout" = pre ++ "timeout" ++ post := by
  refine ⟨?_, ⟨"Execution ", "", rfl⟩⟩
  simp [execute_tool_code, h, handle]

/-- C8 (witness): an infinite loop — the timeout fires during `exec`. -/
theorem c8_timeout_envelope_witness :
    (tryBody ⟨none, true, [], some .timeout, none⟩ (.mapping [])).2 =
      .exc .timeout ∧
    (execute_tool_code ⟨none, true, [], some .timeout, none⟩
        (.mapping [])).2 = .ok (mkErr ("Execution timeout")) :=
  ⟨rfl,
   (c8_timeout_envelope ⟨none, true, [], some .timeout, none⟩
      (.mapping []) rfl).1⟩

/-- C9: when the limiter succeeds, the trace starts with `setrlimit`
of 256 MiB virtual memory (soft and hard), `setrlimit` of 60 s CPU
(soft and hard), then `signal.alarm(120)`; no further `setrlimit` call
ever occurs, so the fixed ceilings are applied exactly once, before
any user code runs, independent of the request and its params. -/
theorem c9_fixed_resource_limits (s : Scenario) (params : Params)
    (h : s.limiterFail = none) :
    ∃ rest, (execute_tool_code s params).1 =
        .rlimitAS (256 * 1024 * 1024) (256 * 1024 * 1024) ::
          .rlimitCPU 60 60 :: .alarmSet 120 :: rest ∧
      rest.filter isRlimit = [] ∧
      (execute_tool_code s params).1.filter isRlimit =
        [.rlimitAS (256 * 1024 * 1024) (256 * 1024 * 1024),
         .rlimitCPU 60 60] := by
  obtain ⟨h1, h2⟩ := execute_trace_shape s params h
  refine ⟨(execute_tool_code s params).1.drop 3, h1, h2, ?_⟩
  rw [h1]
  simp [List.filter_cons, isRlimit, h2]

/-- C9 (witness). -/
theorem c9_fixed_resource_limits_witness :
    (⟨none, true, [], none, none⟩ : Scenario).limiterFail = none ∧
    ∃ rest, (execute_tool_code ⟨none, true, [], none, none⟩
        (.mapping [])).1 =
        .rlimitAS (256 * 1024 * 1024) (256 * 1024 * 1024) ::
          .rlimitCPU 60 60 :: .alarmSet 120 :: rest ∧
      rest.filter isRlimit = [] ∧
      (execute_tool_code ⟨none, true, [], none, none⟩
          (.mapping [])).1.filter isRlimit =
        [.rlimitAS (256 * 1024 * 1024) (256 * 1024 * 1024),
         .rlimitCPU 60 60] :=
  ⟨rfl, c9_fixed_resource_limits ⟨none, true, [], none, none⟩
    (.mapping []) rfl⟩

/-- C10: a decoded request whose `params` does not fit the submitted
`run` signature (not a mapping, or an unexpected keyword) makes
`run(**params)` raise `TypeError`; the fault is caught as an execution
error — `ok = false` — and the process still prints the envelope last
and exits with code 0. -/
theorem c10_params_mismatch (s : Scenario) (sig : List String)
    (body : List (String × Val) → RunRes) (params : Params)
    (h1 : s.limiterFail = none) (h2 : s.compileOk = true)
    (h3 : s.execFault = none) (h4 : s.tools = some (.withRun sig body))
    (h5 : kwargsMismatch sig params = true) :
    (∃ m, invokeRun sig body params = .fault (.other m) ∧
        (execute_tool_code s params).2 =
          .ok (mkErr ("Execution error: " ++ m))) ∧
    (main (.goodRequest s params)).envelope.ok = false ∧
    (main (.goodRequest s params)).exitCode = 0 ∧
    (main (.goodRequest s params)).stdout.getLast? =
      some (encodeEnvelope (main (.goodRequest s params)).envelope) := by
  rcases s with ⟨lf, co, pr, ef, tl⟩
  simp only at h1 h2 h3 h4
  subst h1; subst h2; subst h3; subst h4
  obtain ⟨m, hinv⟩ : ∃ m, invokeRun sig body params =
      .fault (.other m) := by
    rcases params with kvs | v
    · simp only [kwargsMismatch, Bool.not_eq_true'] at h5
      refine ⟨"run() got an unexpected keyword argument", ?_⟩
      simp only [invokeRun, h5]
      rfl
    · exact ⟨"run() argument after ** must be a mapping", rfl⟩
  have hfull : execute_tool_code ⟨none, true, pr, none,
      some (.withRun sig body)⟩ params =
      ((tryBody ⟨none, true, pr, none, some (.withRun sig body)⟩
          params).1 ++ [.alarmSet 0],
       .ok (mkErr ("Execution error: " ++ m))) := by
    simp [execute_tool_code, tryBody, hinv, handle]
  rw [main_good_ok _ _ _ _ hfull]
  refine ⟨⟨m, hinv, by rw [hfull]⟩, rfl, rfl, ?_⟩
  simp

/-- C10 (witness): `run(x)` invoked with the unexpected keyword `y`. -/
theorem c10_params_mismatch_witness :
    kwargsMismatch ["x"] (.mapping [("y", .int 1)]) = true ∧
    (main (.goodRequest
        ⟨none, true, [], none,
         some (.withRun ["x"] (fun _ => .value .null))⟩
        (.mapping [("y", .int 1)]))).envelope.ok = false ∧
    (main (.goodRequest
        ⟨none, true, [], none,
         some (.withRun ["x"] (fun _ => .value .null))⟩
        (.mapping [("y", .int 1)]))).exitCode = 0 :=
  ⟨rfl,
   (c10_params_mismatch _ ["x"] (fun _ => .value .null)
      (.mapping [("y", .int 1)]) rfl rfl rfl rfl rfl).2.1,
   (c10_params_mismatch _ ["x"] (fun _ => .value .null)
      (.mapping [("y", .int 1)]) rfl rfl rfl rfl rfl).2.2.1⟩

end Runner
